import Mathlib

set_option autoImplicit false

/-!
Verification development for the trunk-metrics streaming aggregator
(src/trunk_metrics.py).  The Python source is shallowly embedded:

* `Json` models the values produced by json.loads; `PyExn` models the
  Python exceptions that can escape the embedded code paths.
* `on_message` embeds the WebSocket message handler (lines 87-104),
  including the fact that only json.JSONDecodeError is caught there:
  a raw message that fails JSON decoding is modelled as `none`, and a
  decoded value of unexpected shape makes the Python attribute/type
  errors surface in the second component of the result.
* The numeric layer (`update`, `applyUpdates`, `groupTotals`,
  `generate_trunk_counters`) embeds the aggregate store: the
  last-write-wins per-trunk dictionary `trunk_counts` (lines 100-101)
  and the per-group summing of the dashboard callback (lines 178-197).
-/

namespace TrunkMetrics

/-- Python exceptions that can escape the embedded handler code:
calling `.get` on a non-dict raises AttributeError; using an unhashable
value as operand of `in` on a dict raises TypeError. -/
inductive PyExn where
  | attributeError
  | typeError
deriving DecidableEq, Repr

/-- JSON values as produced by json.loads.  Numbers are modelled as
integers (the feed reports integral call counts). -/
inductive Json where
  | null
  | bool (b : Bool)
  | num (n : Int)
  | str (s : String)
  | arr (elems : List Json)
  | obj (fields : List (String × Json))

/-- First-match association-list lookup (Python dict indexing/`in`,
with string keys). -/
def alookup {α : Type} : List (String × α) → String → Option α
  | [], _ => none
  | (k, v) :: rest, t => if k = t then some v else alookup rest t

/-- Python truthiness of a JSON value (`if trunk_id:` on line 95). -/
def Json.truthy : Json → Bool
  | .null => false
  | .bool b => b
  | .num n => n != 0
  | .str s => s != ""
  | .arr xs => !xs.isEmpty
  | .obj fs => !fs.isEmpty

/-- Python `value.get(key, default)`: succeeds only when the receiver is
a dict; on any other value `.get` does not exist and AttributeError is
raised (lines 91-93 and 97-98 call `.get` unconditionally). -/
def Json.getD : Json → String → Json → Except PyExn Json
  | .obj fields, k, d => .ok ((alookup fields k).getD d)
  | _, _, _ => .error .attributeError

/-- Python `trunk_id in trunk_id_to_base_map` (line 95): the dict keys
are strings; a list or dict operand is unhashable and raises TypeError;
any other non-string value is simply not a key.  Returns the matched
key string when the test succeeds. -/
def pyDictMem : Json → List (String × String) → Except PyExn (Option String)
  | .arr _, _ => .error .typeError
  | .obj _, _ => .error .typeError
  | .str s, m => .ok (if (alookup m s).isSome then some s else none)
  | _, _ => .ok none

/-- The per-trunk counter dictionary `trunk_counts` with JSON values as
stored by the handler (a defaultdict of {"inbound": 0, "outbound": 0}). -/
def getCountsJ (tc : List (String × Json × Json)) (t : String) : Json × Json :=
  (alookup tc t).getD (Json.num 0, Json.num 0)

/-- `trunk_counts[t]["inbound"] = v` (line 100); a missing key is first
materialised by the defaultdict with zero counters. -/
def setInboundJ : List (String × Json × Json) → String → Json → List (String × Json × Json)
  | [], t, v => [(t, v, Json.num 0)]
  | (a, i, o) :: rest, t, v =>
    if a = t then (a, v, o) :: rest else (a, i, o) :: setInboundJ rest t v

/-- `trunk_counts[t]["outbound"] = v` (line 101). -/
def setOutboundJ : List (String × Json × Json) → String → Json → List (String × Json × Json)
  | [], t, v => [(t, Json.num 0, v)]
  | (a, i, o) :: rest, t, v =>
    if a = t then (a, i, v) :: rest else (a, i, o) :: setOutboundJ rest t v

/-- The WebSocket message handler `on_message` (lines 87-104).  `msg`
is the result of json.loads on the raw text: `none` when decoding
raised json.JSONDecodeError (which the handler catches, logs and
drops), `some data` otherwise.  The field accesses mirror lines 90-101
in source order; any Python exception other than the decode error is
uncaught and appears in the second component. -/
def on_message (idMap : List (String × String)) (msg : Option Json)
    (tc : List (String × Json × Json)) : List (String × Json × Json) × Option PyExn :=
  match msg with
  | none => (tc, none)
  | some data =>
    match data.getD "eventBody" (Json.obj []) with
    | .error e => (tc, some e)
    | .ok event_body =>
      match event_body.getD "trunk" (Json.obj []) with
      | .error e => (tc, some e)
      | .ok trunk =>
        match trunk.getD "id" Json.null with
        | .error e => (tc, some e)
        | .ok trunk_id =>
          match event_body.getD "calls" (Json.obj []) with
          | .error e => (tc, some e)
          | .ok calls =>
            if trunk_id.truthy then
              match pyDictMem trunk_id idMap with
              | .error e => (tc, some e)
              | .ok none => (tc, none)
              | .ok (some s) =>
                match calls.getD "inboundCallCount" (Json.num 0) with
                | .error e => (tc, some e)
                | .ok inbound_count =>
                  match calls.getD "outboundCallCount" (Json.num 0) with
                  | .error e => (tc, some e)
                  | .ok outbound_count =>
                    (setOutboundJ (setInboundJ tc s inbound_count) s outbound_count, none)
            else (tc, none)

/-- Extraction of the trunk identifier from a decoded payload, exactly
as lines 91-92 compute it. -/
def eventTrunkId (data : Json) : Except PyExn Json :=
  match data.getD "eventBody" (Json.obj []) with
  | .error e => .error e
  | .ok event_body =>
    match event_body.getD "trunk" (Json.obj []) with
    | .error e => .error e
    | .ok trunk => trunk.getD "id" Json.null

/-- The guard of line 95 fails for the payload: either the extracted
trunk id is falsy, or it is a hashable value that is not a key of the
identity map. -/
def eventDropped (idMap : List (String × String)) (data : Json) : Bool :=
  match eventTrunkId data with
  | .error _ => false
  | .ok j =>
    !j.truthy ||
      (match pyDictMem j idMap with
       | .ok none => true
       | _ => false)

/-- Folding the handler over a stream of decoded inbound messages,
starting from a given counter state; exceptions escaping the handler
are logged by the websocket library and the receive loop continues. -/
def run_messages (idMap : List (String × String)) (msgs : List (Option Json))
    (tc : List (String × Json × Json)) : List (String × Json × Json) :=
  msgs.foldl (fun s m => (on_message idMap m s).1) tc

/-- Keys of a per-trunk counter dictionary. -/
def keysOf {α : Type} (tc : List (String × α)) : List String :=
  tc.map (fun e => e.1)

/-! ### Numeric aggregate layer

For well-formed numeric events the stored values are the reported
non-negative call counts.  This layer embeds the same dictionaries with
`Nat × Nat` counters: `update` is the two-assignment replacement of
lines 100-101 seen as one handler step, and `generate_trunk_counters`
is the per-group summing loop of lines 178-197 (stripped of the Dash
HTML wrapping, keeping the computed totals). -/

/-- Latest counters for a trunk: defaultdict read of `trunk_counts`. -/
def getCounts (tc : List (String × Nat × Nat)) (t : String) : Nat × Nat :=
  (alookup tc t).getD (0, 0)

/-- Absolute replacement of the per-trunk entry (lines 100-101):
`trunk_counts[t]["inbound"] = i; trunk_counts[t]["outbound"] = o`. -/
def update : List (String × Nat × Nat) → String → Nat × Nat → List (String × Nat × Nat)
  | [], t, c => [(t, c)]
  | (a, b) :: rest, t, c =>
    if a = t then (a, c) :: rest else (a, b) :: update rest t c

/-- A sequence of counter updates applied in arrival order. -/
def applyUpdates (tc : List (String × Nat × Nat)) (us : List (String × (Nat × Nat))) :
    List (String × Nat × Nat) :=
  us.foldl (fun s u => update s u.1 u.2) tc

/-- The last pair applied to a given trunk in a sequence of updates. -/
def lastAppliedTo (us : List (String × (Nat × Nat))) (t : String) : Option (Nat × Nat) :=
  us.foldl (fun acc u => if u.1 = t then some u.2 else acc) none

/-- The inner summing loop of lines 184-188: running totals over all
identity-map entries whose trunkbase name equals `g`. -/
def groupTotals (idMap : List (String × String)) (tc : List (String × Nat × Nat))
    (g : String) : Nat × Nat :=
  idMap.foldl
    (fun acc p =>
      if p.2 = g then (acc.1 + (getCounts tc p.1).1, acc.2 + (getCounts tc p.1).2) else acc)
    (0, 0)

/-- The dashboard snapshot (lines 178-197): one entry per pre-populated
trunkbase name, carrying the summed totals. -/
def generate_trunk_counters (preKeys : List String) (idMap : List (String × String))
    (tc : List (String × Nat × Nat)) : List (String × Nat × Nat) :=
  preKeys.map (fun g => (g, groupTotals idMap tc g))

/-- Componentwise inbound sum over the trunks mapped to `g`, written
independently of the folding loop (specification side of C1). -/
def groupSumIn (idMap : List (String × String)) (tc : List (String × Nat × Nat))
    (g : String) : Nat :=
  ((idMap.filter (fun p => p.2 = g)).map (fun p => (getCounts tc p.1).1)).sum

/-- Componentwise outbound sum over the trunks mapped to `g`. -/
def groupSumOut (idMap : List (String × String)) (tc : List (String × Nat × Nat))
    (g : String) : Nat :=
  ((idMap.filter (fun p => p.2 = g)).map (fun p => (getCounts tc p.1).2)).sum

/-! ### Identity resolution (`fetch_trunk_names`, lines 57-73)

The external directory call `get_telephony_providers_edges_trunk` and
the subsequent `.trunk_base.name` access are modelled by an oracle
`lk : String → Option String` (`none` when the lookup raises).  The
whole per-trunk loop and the pre-population loop sit inside one
try/except, so the first failing lookup aborts everything that follows;
the exception is caught and only logged. -/

/-- Loop body of `fetch_trunk_names`: accumulates the trunk-to-base
map entry by entry; on the first failing lookup the surrounding
try/except aborts the rest of the loop and the pre-population step,
returning the entries accumulated so far and no pre-populated group
keys.  On full success it returns the map together with the
de-duplicated set of trunkbase names seeded into `call_counts`. -/
def fetch_trunk_names_go (lk : String → Option String) :
    List String → List (String × String) → List (String × String) × List String
  | [], acc => (acc, (acc.map (fun p => p.2)).dedup)
  | tid :: rest, acc =>
    match lk tid with
    | some name => fetch_trunk_names_go lk rest (acc ++ [(tid, name)])
    | none => (acc, [])

/-- `fetch_trunk_names` starting from the empty module-level map:
first component is `trunk_id_to_base_map`, second the keys seeded into
`call_counts`. -/
def fetch_trunk_names (lk : String → Option String) (trunk_ids : List String) :
    List (String × String) × List String :=
  fetch_trunk_names_go lk trunk_ids []

/-! ### Subscription protocol (lines 41-43 and 117-127) -/

/-- `string.ascii_letters + string.digits` (line 42). -/
def characters : List Char :=
  "abcdefghijklmnopqrstuvwxyzABCDEFGHIJKLMNOPQRSTUVWXYZ0123456789".toList

/-- `generate_correlation_id` (lines 41-43): `len` uniformly random
choices from `characters`, the randomness supplied by `pickChar`. -/
def generate_correlation_id (pickChar : Nat → Nat) (len : Nat) : String :=
  String.mk ((List.range len).map (fun i => characters.getD (pickChar i % characters.length) 'a'))

/-- One subscribe message as built on lines 121-125. -/
structure SubscribeMsg where
  message : String
  topics : List String
  correlationId : String
deriving DecidableEq, Repr

/-- The topic string of line 120. -/
def trunkTopic (tid : String) : String :=
  "v2.telephony.providers.edges.trunks." ++ tid ++ ".metrics"

/-- `subscribe_to_trunk_metrics` (lines 117-127): one correlation id is
generated for the batch, then the loop sends one subscribe message per
tracked trunk, each carrying a single-element topic list. -/
def subscribe_to_trunk_metrics (pickChar : Nat → Nat) (trunk_ids : List String) :
    List SubscribeMsg :=
  let correlation_id := generate_correlation_id pickChar 12
  trunk_ids.map (fun tid => ⟨"subscribe", [trunkTopic tid], correlation_id⟩)

/-! ### Keep-alive and the outbound traffic of one epoch -/

/-- Outbound messages a connection epoch can emit: either a subscribe
message (line 126) or the keep-alive ping payload of line 134. -/
inductive Outbound where
  | sub (m : SubscribeMsg)
  | ping
deriving DecidableEq, Repr

/-- The `keep_alive` loop (lines 130-138), run for `fuel` iterations
starting at iteration index `k`: each iteration sleeps 30 time-units
and then attempts a ping, so the attempt of iteration `k` happens at
time `30 * (k + 1)`; `sendOk k` tells whether that send succeeds.  A
failed send breaks the loop (lines 136-138).  Returns the list of
(attempt time, send success) pairs. -/
def keep_alive_run (sendOk : Nat → Bool) : Nat → Nat → List (Nat × Bool)
  | 0, _ => []
  | fuel + 1, k =>
    (30 * (k + 1), sendOk k) :: (if sendOk k then keep_alive_run sendOk fuel (k + 1) else [])

/-- All messages sent over the transport during one connection epoch of
`run_websocket` (lines 141-173).  The only send sites in the source are
`ws.send` inside `subscribe_to_trunk_metrics` (line 126, invoked from
`on_open`) and `ws.send` inside `keep_alive` (line 134); `run_websocket`
never starts `keep_alive` (line 167: keep_alive is not used), and the
message/error/close handlers send nothing, so the epoch traffic is
exactly the subscribe batch. -/
def run_websocket_epoch_sends (pickChar : Nat → Nat) (trunk_ids : List String) :
    List Outbound :=
  (subscribe_to_trunk_metrics pickChar trunk_ids).map Outbound.sub

/-! ### Interleaved memory operations (concurrency model for C9)

The dispatcher thread writes the two components of a per-trunk entry in
two separate assignments (lines 100-101) while the dashboard callback
reads the two components in two separate accesses (lines 187-188), with
no lock anywhere.  `MemOp` is the resulting alphabet of atomic memory
accesses on `trunk_counts`, and `exec` runs a schedule of them. -/

inductive MemOp where
  | wIn (t : String) (v : Nat)
  | wOut (t : String) (v : Nat)
  | rIn (t : String)
  | rOut (t : String)
deriving DecidableEq, Repr

/-- `trunk_counts[t]["inbound"] = v` as a single atomic access. -/
def writeIn : List (String × Nat × Nat) → String → Nat → List (String × Nat × Nat)
  | [], t, v => [(t, v, 0)]
  | (a, c) :: rest, t, v =>
    if a = t then (a, v, c.2) :: rest else (a, c) :: writeIn rest t v

/-- `trunk_counts[t]["outbound"] = v` as a single atomic access. -/
def writeOut : List (String × Nat × Nat) → String → Nat → List (String × Nat × Nat)
  | [], t, v => [(t, 0, v)]
  | (a, c) :: rest, t, v =>
    if a = t then (a, c.1, v) :: rest else (a, c) :: writeOut rest t v

/-- Runs a schedule of atomic accesses: writes mutate the store, reads
accumulate into the running (inbound, outbound) totals of the snapshot
loop.  Returns the final store and the totals the reader observed. -/
def exec : List (String × Nat × Nat) → Nat × Nat → List MemOp →
    List (String × Nat × Nat) × (Nat × Nat)
  | tc, acc, [] => (tc, acc)
  | tc, acc, .wIn t v :: rest => exec (writeIn tc t v) acc rest
  | tc, acc, .wOut t v :: rest => exec (writeOut tc t v) acc rest
  | tc, acc, .rIn t :: rest => exec tc (acc.1 + (getCounts tc t).1, acc.2) rest
  | tc, acc, .rOut t :: rest => exec tc (acc.1, acc.2 + (getCounts tc t).2) rest

/-- The dispatcher trace of one `update(t, c)`: the two assignments of
lines 100-101 in order. -/
def updTrace (t : String) (c : Nat × Nat) : List MemOp :=
  [.wIn t c.1, .wOut t c.2]

/-- The reader trace of the group-`g` summing loop (lines 185-188):
for each identity-map entry mapped to `g`, read inbound then outbound. -/
def snapTrace (idMap : List (String × String)) (g : String) : List MemOp :=
  (idMap.filter (fun p => p.2 = g)).foldr (fun p ops => .rIn p.1 :: .rOut p.1 :: ops) []

/-- `Interleaving a b c`: schedule `c` is a merge of the two thread
traces `a` and `b` preserving each one, per-thread order. -/
inductive Interleaving : List MemOp → List MemOp → List MemOp → Prop where
  | nil : Interleaving [] [] []
  | left {x : MemOp} {xs ys zs : List MemOp} :
      Interleaving xs ys zs → Interleaving (x :: xs) ys (x :: zs)
  | right {y : MemOp} {xs ys zs : List MemOp} :
      Interleaving xs ys zs → Interleaving xs (y :: ys) (y :: zs)

/-! ## Lemmas about the numeric aggregate layer -/

theorem alookup_update (tc : List (String × Nat × Nat)) (t u : String) (c : Nat × Nat) :
    alookup (update tc t c) u = if t = u then some c else alookup tc u := by
  induction tc with
  | nil => by_cases h : t = u <;> simp [update, alookup, h]
  | cons p rest ih =>
    rcases p with ⟨a, b⟩
    by_cases hat : a = t
    · subst hat
      by_cases hau : a = u <;> simp [update, alookup, hau]
    · by_cases hau : a = u
      · subst hau
        have h2 : ¬ t = a := fun hh => hat hh.symm
        simp [update, alookup, hat, h2]
      · simp [update, alookup, hat, hau, ih]

theorem getCounts_update (tc : List (String × Nat × Nat)) (t u : String) (c : Nat × Nat) :
    getCounts (update tc t c) u = if t = u then c else getCounts tc u := by
  unfold getCounts
  rw [alookup_update]
  by_cases h : t = u <;> simp [h]

theorem foldl_lastOption (us : List (String × (Nat × Nat))) (t : String)
    (a : Option (Nat × Nat)) :
    us.foldl (fun acc u => if u.1 = t then some u.2 else acc) a =
      (lastAppliedTo us t).elim a some := by
  induction us generalizing a with
  | nil => simp [lastAppliedTo]
  | cons u us ih =>
    by_cases h : u.1 = t
    · simp only [lastAppliedTo, List.foldl_cons, h, if_true]
      rw [ih (some u.2)]
      cases lastAppliedTo us t <;> simp
    · simp only [lastAppliedTo, List.foldl_cons, h, if_false]
      rw [ih a, ih none]
      cases lastAppliedTo us t <;> simp

theorem getCounts_applyUpdates (us : List (String × (Nat × Nat)))
    (tc : List (String × Nat × Nat)) (t : String) :
    getCounts (applyUpdates tc us) t = (lastAppliedTo us t).getD (getCounts tc t) := by
  induction us generalizing tc with
  | nil => simp [applyUpdates, lastAppliedTo]
  | cons u us ih =>
    have hstep : applyUpdates tc (u :: us) = applyUpdates (update tc u.1 u.2) us := rfl
    rw [hstep, ih]
    have hlast : lastAppliedTo (u :: us) t =
        (lastAppliedTo us t).elim (if u.1 = t then some u.2 else none) some := by
      simp only [lastAppliedTo, List.foldl_cons]
      exact foldl_lastOption us t _
    rw [hlast, getCounts_update]
    by_cases h : u.1 = t
    · cases lastAppliedTo us t <;> simp [h]
    · cases lastAppliedTo us t <;> simp [h]

theorem groupTotals_go (idMap : List (String × String)) (tc : List (String × Nat × Nat))
    (g : String) (acc : Nat × Nat) :
    idMap.foldl
        (fun acc p =>
          if p.2 = g then (acc.1 + (getCounts tc p.1).1, acc.2 + (getCounts tc p.1).2) else acc)
        acc
      = (acc.1 + groupSumIn idMap tc g, acc.2 + groupSumOut idMap tc g) := by
  induction idMap generalizing acc with
  | nil => simp [groupSumIn, groupSumOut]
  | cons p rest ih =>
    by_cases h : p.2 = g
    · simp only [List.foldl_cons, h, if_true]
      rw [ih]
      simp [groupSumIn, groupSumOut, List.filter_cons, h, Nat.add_assoc]
    · simp only [List.foldl_cons, h, if_false]
      rw [ih]
      simp [groupSumIn, groupSumOut, List.filter_cons, h]

theorem groupTotals_eq (idMap : List (String × String)) (tc : List (String × Nat × Nat))
    (g : String) :
    groupTotals idMap tc g = (groupSumIn idMap tc g, groupSumOut idMap tc g) := by
  simpa using groupTotals_go idMap tc g (0, 0)

theorem generate_lookup (preKeys : List String) (idMap : List (String × String))
    (tc : List (String × Nat × Nat)) (g : String) (h : g ∈ preKeys) :
    alookup (generate_trunk_counters preKeys idMap tc) g = some (groupTotals idMap tc g) := by
  induction preKeys with
  | nil => cases h
  | cons k ks ih =>
    by_cases hk : k = g
    · subst hk
      simp [generate_trunk_counters, alookup]
    · rcases List.mem_cons.mp h with h1 | h1
      · exact absurd h1.symm hk
      · simpa [generate_trunk_counters, alookup, hk] using ih h1

/-! ## Claim theorems: aggregate store -/

/-- C1: for every identity map and per-trunk state, the per-group
snapshot entry at a pre-populated group g is the componentwise
(inbound, outbound) sum of the per-trunk counters over all mapped
trunks t with identityMap t = g; in the concrete scenario with T1 and
T2 both mapped to group G, after update(T1,(3,1)) and update(T2,(5,2))
the snapshot of G is (8,3), and after a further update(T1,(0,0)) it is
(5,2). -/
theorem C1_snapshotByGroup_eq_sum (preKeys : List String) (idMap : List (String × String))
    (tc : List (String × Nat × Nat)) (g : String) (h : g ∈ preKeys) :
    alookup (generate_trunk_counters preKeys idMap tc) g
        = some (groupSumIn idMap tc g, groupSumOut idMap tc g) ∧
    alookup (generate_trunk_counters ["G"] [("T1", "G"), ("T2", "G")]
        (applyUpdates [] [("T1", (3, 1)), ("T2", (5, 2))])) "G" = some (8, 3) ∧
    alookup (generate_trunk_counters ["G"] [("T1", "G"), ("T2", "G")]
        (applyUpdates [] [("T1", (3, 1)), ("T2", (5, 2)), ("T1", (0, 0))])) "G"
      = some (5, 2) := by
  refine ⟨?_, by decide, by decide⟩
  rw [generate_lookup preKeys idMap tc g h, groupTotals_eq]

/-- Witness for C1 at a concrete input. -/
theorem C1_snapshotByGroup_eq_sum_witness :
    ("G" ∈ ["G"]) ∧
    (alookup (generate_trunk_counters ["G"] [("T1", "G")] [("T1", (2, 3))]) "G"
        = some (groupSumIn [("T1", "G")] [("T1", (2, 3))] "G",
                groupSumOut [("T1", "G")] [("T1", (2, 3))] "G") ∧
    alookup (generate_trunk_counters ["G"] [("T1", "G"), ("T2", "G")]
        (applyUpdates [] [("T1", (3, 1)), ("T2", (5, 2))])) "G" = some (8, 3) ∧
    alookup (generate_trunk_counters ["G"] [("T1", "G"), ("T2", "G")]
        (applyUpdates [] [("T1", (3, 1)), ("T2", (5, 2)), ("T1", (0, 0))])) "G"
      = some (5, 2)) :=
  ⟨by decide, C1_snapshotByGroup_eq_sum ["G"] [("T1", "G")] [("T1", (2, 3))] "G" (by decide)⟩

/-- C2: after any sequence of updates, the per-trunk snapshot entry of
a trunk equals exactly the last (inbound, outbound) pair applied to it:
each event replaces the stored pair, never accumulates onto it. -/
theorem C2_update_last_write_wins (us : List (String × (Nat × Nat)))
    (tc : List (String × Nat × Nat)) (t : String) (c : Nat × Nat)
    (h : lastAppliedTo us t = some c) :
    getCounts (applyUpdates tc us) t = c := by
  rw [getCounts_applyUpdates, h]
  rfl

/-- Witness for C2 at a concrete input. -/
theorem C2_update_last_write_wins_witness :
    (lastAppliedTo [("T1", (3, 1)), ("T2", (9, 9)), ("T1", (5, 2))] "T1" = some (5, 2)) ∧
    getCounts (applyUpdates [] [("T1", (3, 1)), ("T2", (9, 9)), ("T1", (5, 2))]) "T1"
      = (5, 2) :=
  ⟨by decide,
    C2_update_last_write_wins [("T1", (3, 1)), ("T2", (9, 9)), ("T1", (5, 2))] [] "T1" (5, 2)
      (by decide)⟩

/-- C8: every pre-registered group appears in the per-group snapshot
with counters (0, 0) when no mapped trunk contributes to it — either
because no trunk maps to it or because every trunk mapped to it still
has the default zero counters. -/
theorem C8_preregistered_group_zero (preKeys : List String) (idMap : List (String × String))
    (tc : List (String × Nat × Nat)) (g : String) (h1 : g ∈ preKeys)
    (h2 : ∀ p ∈ idMap, p.2 ≠ g ∨ getCounts tc p.1 = (0, 0)) :
    alookup (generate_trunk_counters preKeys idMap tc) g = some (0, 0) := by
  rw [generate_lookup preKeys idMap tc g h1, groupTotals_eq]
  have hz : ∀ p ∈ idMap.filter (fun p => p.2 = g), getCounts tc p.1 = (0, 0) := by
    intro p hp
    rcases List.mem_filter.mp hp with ⟨hpm, hpg⟩
    rcases h2 p hpm with h | h
    · exact absurd (by simpa using hpg) h
    · exact h
  have hin : groupSumIn idMap tc g = 0 := by
    refine List.sum_eq_zero ?_
    intro x hx
    rcases List.mem_map.mp hx with ⟨p, hp, rfl⟩
    rw [hz p hp]
  have hout : groupSumOut idMap tc g = 0 := by
    refine List.sum_eq_zero ?_
    intro x hx
    rcases List.mem_map.mp hx with ⟨p, hp, rfl⟩
    rw [hz p hp]
  rw [hin, hout]

/-- Witness for C8 at a concrete input. -/
theorem C8_preregistered_group_zero_witness :
    ("H" ∈ ["G", "H"]) ∧
    (∀ p ∈ [("T1", "G")], p.2 ≠ "H" ∨ getCounts [("T1", (3, 1))] p.1 = (0, 0)) ∧
    alookup (generate_trunk_counters ["G", "H"] [("T1", "G")] [("T1", (3, 1))]) "H"
      = some (0, 0) :=
  ⟨by decide, by decide,
    C8_preregistered_group_zero ["G", "H"] [("T1", "G")] [("T1", (3, 1))] "H" (by decide)
      (by decide)⟩

/-! ## Lemmas about the message handler -/

theorem pyDictMem_some (j : Json) (idMap : List (String × String)) (s : String)
    (h : pyDictMem j idMap = .ok (some s)) : (alookup idMap s).isSome = true := by
  cases j with
  | str s2 =>
    simp only [pyDictMem] at h
    by_cases h2 : (alookup idMap s2).isSome = true
    · simp only [h2, if_true] at h
      cases h
      exact h2
    · simp [h2] at h
  | null => simp [pyDictMem] at h
  | bool b => simp [pyDictMem] at h
  | num n => simp [pyDictMem] at h
  | arr xs => simp [pyDictMem] at h
  | obj fs => simp [pyDictMem] at h

theorem on_message_shape (idMap : List (String × String)) (data : Json)
    (tc : List (String × Json × Json)) :
    (on_message idMap (some data) tc).1 = tc ∨
      ∃ s inb outb, (alookup idMap s).isSome = true ∧
        on_message idMap (some data) tc =
          (setOutboundJ (setInboundJ tc s inb) s outb, none) := by
  cases hd : data.getD "eventBody" (Json.obj []) with
  | error e => exact Or.inl (by simp [on_message, hd])
  | ok eb =>
    cases ht : eb.getD "trunk" (Json.obj []) with
    | error e => exact Or.inl (by simp [on_message, hd, ht])
    | ok tr =>
      cases hid : tr.getD "id" Json.null with
      | error e => exact Or.inl (by simp [on_message, hd, ht, hid])
      | ok tid =>
        cases hc : eb.getD "calls" (Json.obj []) with
        | error e => exact Or.inl (by simp [on_message, hd, ht, hid, hc])
        | ok calls =>
          by_cases htr : tid.truthy = true
          · cases hm : pyDictMem tid idMap with
            | error e => exact Or.inl (by simp [on_message, hd, ht, hid, hc, htr, hm])
            | ok os =>
              cases os with
              | none => exact Or.inl (by simp [on_message, hd, ht, hid, hc, htr, hm])
              | some s =>
                cases hin : calls.getD "inboundCallCount" (Json.num 0) with
                | error e =>
                  exact Or.inl (by simp [on_message, hd, ht, hid, hc, htr, hm, hin])
                | ok inb =>
                  cases hout : calls.getD "outboundCallCount" (Json.num 0) with
                  | error e =>
                    exact Or.inl (by simp [on_message, hd, ht, hid, hc, htr, hm, hin, hout])
                  | ok outb =>
                    refine Or.inr ⟨s, inb, outb, pyDictMem_some tid idMap s hm, ?_⟩
                    simp [on_message, hd, ht, hid, hc, htr, hm, hin, hout]
          · exact Or.inl (by simp [on_message, hd, ht, hid, hc, htr])

theorem on_message_dropped (idMap : List (String × String)) (data : Json)
    (tc : List (String × Json × Json)) (j : Json)
    (h1 : eventTrunkId data = .ok j)
    (h2 : j.truthy = false ∨ pyDictMem j idMap = .ok none) :
    on_message idMap (some data) tc = (tc, none) := by
  cases hd : data.getD "eventBody" (Json.obj []) with
  | error e => simp [eventTrunkId, hd] at h1
  | ok eb =>
    cases ht : eb.getD "trunk" (Json.obj []) with
    | error e => simp [eventTrunkId, hd, ht] at h1
    | ok tr =>
      have hid : tr.getD "id" Json.null = .ok j := by
        simpa [eventTrunkId, hd, ht] using h1
      cases eb with
      | obj fs =>
        have hcalls : (Json.obj fs).getD "calls" (Json.obj []) =
            .ok ((alookup fs "calls").getD (Json.obj [])) := rfl
        rcases h2 with h2 | h2
        · simp [on_message, hd, ht, hid, hcalls, h2]
        · by_cases htr : j.truthy = true
          · simp [on_message, hd, ht, hid, hcalls, htr, h2]
          · simp [on_message, hd, ht, hid, hcalls, htr]
      | null => simp [Json.getD] at ht
      | bool b => simp [Json.getD] at ht
      | num n => simp [Json.getD] at ht
      | str s2 => simp [Json.getD] at ht
      | arr xs => simp [Json.getD] at ht

theorem alookup_isSome_mem {α : Type} (m : List (String × α)) (s : String)
    (h : (alookup m s).isSome = true) : s ∈ keysOf m := by
  induction m with
  | nil => simp [alookup] at h
  | cons p rest ih =>
    by_cases hp : p.1 = s
    · simp [keysOf, hp]
    · simp only [alookup, hp, if_false] at h
      simpa [keysOf] using Or.inr (by simpa [keysOf] using ih h)

theorem mem_keysOf {α : Type} {l : List (String × α)} {x : String} :
    x ∈ keysOf l ↔ ∃ c, (x, c) ∈ l := by
  constructor
  · intro h
    rcases List.mem_map.mp h with ⟨e, he, rfl⟩
    exact ⟨e.2, he⟩
  · rintro ⟨c, hc⟩
    exact List.mem_map.mpr ⟨(x, c), hc, rfl⟩

theorem keysOf_setInboundJ (tc : List (String × Json × Json)) (t : String) (v : Json)
    (x : String) (h : x ∈ keysOf (setInboundJ tc t v)) : x ∈ keysOf tc ∨ x = t := by
  rcases mem_keysOf.mp h with ⟨c, hc⟩
  clear h
  induction tc with
  | nil =>
    simp [setInboundJ] at hc
    exact Or.inr hc.1
  | cons p rest ih =>
    rcases p with ⟨a, b⟩
    by_cases ha : a = t
    · rw [setInboundJ, if_pos ha] at hc
      rcases List.mem_cons.mp hc with h3 | h3
      · cases h3
        exact Or.inr ha
      · exact Or.inl (mem_keysOf.mpr ⟨c, List.mem_cons_of_mem _ h3⟩)
    · rw [setInboundJ, if_neg ha] at hc
      rcases List.mem_cons.mp hc with h3 | h3
      · cases h3
        exact Or.inl (mem_keysOf.mpr ⟨b, List.mem_cons_self _ _⟩)
      · rcases ih h3 with h4 | h4
        · rcases mem_keysOf.mp h4 with ⟨c2, hc2⟩
          exact Or.inl (mem_keysOf.mpr ⟨c2, List.mem_cons_of_mem _ hc2⟩)
        · exact Or.inr h4

theorem keysOf_setOutboundJ (tc : List (String × Json × Json)) (t : String) (v : Json)
    (x : String) (h : x ∈ keysOf (setOutboundJ tc t v)) : x ∈ keysOf tc ∨ x = t := by
  rcases mem_keysOf.mp h with ⟨c, hc⟩
  clear h
  induction tc with
  | nil =>
    simp [setOutboundJ] at hc
    exact Or.inr hc.1
  | cons p rest ih =>
    rcases p with ⟨a, b⟩
    by_cases ha : a = t
    · rw [setOutboundJ, if_pos ha] at hc
      rcases List.mem_cons.mp hc with h3 | h3
      · cases h3
        exact Or.inr ha
      · exact Or.inl (mem_keysOf.mpr ⟨c, List.mem_cons_of_mem _ h3⟩)
    · rw [setOutboundJ, if_neg ha] at hc
      rcases List.mem_cons.mp hc with h3 | h3
      · cases h3
        exact Or.inl (mem_keysOf.mpr ⟨b, List.mem_cons_self _ _⟩)
      · rcases ih h3 with h4 | h4
        · rcases mem_keysOf.mp h4 with ⟨c2, hc2⟩
          exact Or.inl (mem_keysOf.mpr ⟨c2, List.mem_cons_of_mem _ hc2⟩)
        · exact Or.inr h4

theorem keysOf_on_message (idMap : List (String × String)) (m : Option Json)
    (tc : List (String × Json × Json)) (x : String)
    (hx : x ∈ keysOf ((on_message idMap m tc).1)) :
    x ∈ keysOf tc ∨ x ∈ keysOf idMap := by
  cases m with
  | none => exact Or.inl hx
  | some data =>
    rcases on_message_shape idMap data tc with h | ⟨s, inb, outb, hs, h⟩
    · rw [h] at hx
      exact Or.inl hx
    · rw [h] at hx
      rcases keysOf_setOutboundJ _ _ _ x hx with hx2 | rfl
      · rcases keysOf_setInboundJ _ _ _ x hx2 with hx3 | rfl
        · exact Or.inl hx3
        · exact Or.inr (alookup_isSome_mem idMap x hs)
      · exact Or.inr (alookup_isSome_mem idMap x hs)

theorem keysOf_run_messages (idMap : List (String × String)) (msgs : List (Option Json))
    (tc : List (String × Json × Json)) (h : ∀ x ∈ keysOf tc, x ∈ keysOf idMap) :
    ∀ x ∈ keysOf (run_messages idMap msgs tc), x ∈ keysOf idMap := by
  induction msgs generalizing tc with
  | nil => exact h
  | cons m ms ih =>
    intro x hx
    refine ih ((on_message idMap m tc).1) ?_ x hx
    intro y hy
    rcases keysOf_on_message idMap m tc y hy with hy2 | hy2
    · exact h y hy2
    · exact hy2

/-! ## Claim theorems: message handling -/

/-- C3 counterexample: the payload decoding to the JSON list `[]` is
malformed (it is not an event object), yet handling it raises an
AttributeError out of the handler — only json.JSONDecodeError is
caught — refuting the claim that malformed payloads never raise into
the connection supervisor. -/
theorem C3_counterexample :
    on_message [("T1", "G")] (some (Json.arr [])) [] = ([], some PyExn.attributeError) ∧
    some PyExn.attributeError ≠ (none : Option PyExn) :=
  ⟨rfl, by simp⟩

/-- C3 (amended): every malformed inbound payload leaves the per-trunk
counter state unchanged, and a payload that fails JSON decoding is
dropped without raising; however, a payload that decodes to a value of
unexpected shape raises the resulting Python error out of the handler
(the state is still unchanged in that case). -/
theorem C3_malformed_state_unchanged (idMap : List (String × String)) (msg : Option Json)
    (tc : List (String × Json × Json))
    (h : msg = none ∨ (on_message idMap msg tc).2 ≠ none) :
    (on_message idMap msg tc).1 = tc ∧
      (msg = none → (on_message idMap msg tc).2 = none) := by
  constructor
  · rcases h with h | h
    · subst h
      rfl
    · cases msg with
      | none => rfl
      | some data =>
        rcases on_message_shape idMap data tc with h2 | ⟨s, inb, outb, _, h2⟩
        · exact h2
        · rw [h2] at h
          exact absurd rfl h
  · intro hm
    subst hm
    rfl

/-- Witness for C3 (amended) at a concrete input. -/
theorem C3_malformed_state_unchanged_witness :
    ((none : Option Json) = none ∨ (on_message [("T1", "G")] none []).2 ≠ none) ∧
    ((on_message [("T1", "G")] none []).1 = [] ∧
      ((none : Option Json) = none → (on_message [("T1", "G")] none []).2 = none)) :=
  ⟨Or.inl rfl, C3_malformed_state_unchanged [("T1", "G")] none [] (Or.inl rfl)⟩

/-- C4 counterexample: a well-formed event for trunk TX, absent from
the identity map {T1 -> G}, reporting counts (7, 4): the handler drops
it entirely — the resulting per-trunk map is unchanged (empty), with no
entry for TX — refuting the claim that such an event is still applied
to the per-trunk counters. -/
theorem C4_counterexample :
    on_message [("T1", "G")]
        (some (Json.obj [("eventBody", Json.obj
          [("trunk", Json.obj [("id", Json.str "TX")]),
           ("calls", Json.obj [("inboundCallCount", Json.num 7),
                               ("outboundCallCount", Json.num 4)])])])) []
      = ([], none) ∧
    (none : Option (Json × Json)) ≠ some (Json.num 7, Json.num 4) :=
  ⟨rfl, by simp⟩

/-- C4 (amended): a well-formed event whose trunk identifier is absent
from the identity map is dropped entirely: the per-trunk counters are
left unchanged (and consequently no group aggregate changes); the event
is not applied anywhere until a mapping exists. -/
theorem C4_unmapped_event_dropped (idMap : List (String × String)) (data : Json)
    (tc : List (String × Json × Json)) (s : String)
    (h1 : eventTrunkId data = .ok (Json.str s))
    (h2 : alookup idMap s = none) :
    on_message idMap (some data) tc = (tc, none) := by
  apply on_message_dropped idMap data tc (Json.str s) h1
  right
  simp [pyDictMem, h2]

/-- Witness for C4 (amended) at a concrete input. -/
theorem C4_unmapped_event_dropped_witness :
    (eventTrunkId (Json.obj [("eventBody", Json.obj
        [("trunk", Json.obj [("id", Json.str "TX")]),
         ("calls", Json.obj [("inboundCallCount", Json.num 7),
                             ("outboundCallCount", Json.num 4)])])]) = .ok (Json.str "TX")) ∧
    (alookup [("T1", "G")] "TX" = none) ∧
    on_message [("T1", "G")]
        (some (Json.obj [("eventBody", Json.obj
          [("trunk", Json.obj [("id", Json.str "TX")]),
           ("calls", Json.obj [("inboundCallCount", Json.num 7),
                               ("outboundCallCount", Json.num 4)])])])) [("T1", Json.num 1, Json.num 2)]
      = ([("T1", Json.num 1, Json.num 2)], none) :=
  ⟨rfl, rfl,
    C4_unmapped_event_dropped [("T1", "G")]
      (Json.obj [("eventBody", Json.obj
        [("trunk", Json.obj [("id", Json.str "TX")]),
         ("calls", Json.obj [("inboundCallCount", Json.num 7),
                             ("outboundCallCount", Json.num 4)])])])
      [("T1", Json.num 1, Json.num 2)] "TX" rfl rfl⟩

/-- C10: an event whose payload carries no (truthy) trunk id, or whose
trunk identifier is not a key of the identity map, leaves the counter
state unchanged (and raises nothing); consequently, starting from the
empty state, after any sequence of inbound messages every key of the
per-trunk counter map is also a key of the identity map. -/
theorem C10_handler_key_invariant (idMap : List (String × String)) (data : Json)
    (tc : List (String × Json × Json)) (msgs : List (Option Json)) (j : Json)
    (h1 : eventTrunkId data = .ok j)
    (h2 : j.truthy = false ∨ pyDictMem j idMap = .ok none) :
    on_message idMap (some data) tc = (tc, none) ∧
      keysOf (run_messages idMap msgs []) ⊆ keysOf idMap := by
  refine ⟨on_message_dropped idMap data tc j h1 h2, ?_⟩
  intro x hx
  exact keysOf_run_messages idMap msgs [] (by intro y hy; cases hy) x hx

/-- Witness for C10 at a concrete input. -/
theorem C10_handler_key_invariant_witness :
    (eventTrunkId (Json.obj [("eventBody", Json.obj [])]) = .ok Json.null) ∧
    (Json.truthy Json.null = false ∨
      pyDictMem Json.null [("T1", "G")] = .ok none) ∧
    (on_message [("T1", "G")] (some (Json.obj [("eventBody", Json.obj [])])) [] = ([], none) ∧
      keysOf (run_messages [("T1", "G")]
        [some (Json.obj [("eventBody", Json.obj
          [("trunk", Json.obj [("id", Json.str "T1")]),
           ("calls", Json.obj [("inboundCallCount", Json.num 3),
                               ("outboundCallCount", Json.num 1)])])])] []) ⊆
        keysOf [("T1", "G")]) :=
  ⟨rfl, Or.inl rfl,
    C10_handler_key_invariant [("T1", "G")] (Json.obj [("eventBody", Json.obj [])]) []
      [some (Json.obj [("eventBody", Json.obj
        [("trunk", Json.obj [("id", Json.str "T1")]),
         ("calls", Json.obj [("inboundCallCount", Json.num 3),
                             ("outboundCallCount", Json.num 1)])])])]
      Json.null rfl (Or.inl rfl)⟩

/-! ## Lemmas about identity resolution -/

theorem fetch_go_fst (lk : String → Option String) :
    ∀ (ids : List String) (acc : List (String × String)),
      (fetch_trunk_names_go lk ids acc).1 =
        acc ++ (ids.takeWhile (fun i => (lk i).isSome)).filterMap
          (fun i => (lk i).map (fun n => (i, n))) := by
  intro ids
  induction ids with
  | nil => intro acc; simp [fetch_trunk_names_go]
  | cons i rest ih =>
    intro acc
    cases hl : lk i with
    | some name =>
      simp only [fetch_trunk_names_go, hl]
      rw [ih]
      simp [List.takeWhile_cons, hl, List.append_assoc]
    | none =>
      simp [fetch_trunk_names_go, hl, List.takeWhile_cons]

theorem fetch_go_snd_fail (lk : String → Option String) :
    ∀ (ids : List String) (acc : List (String × String)),
      (∃ i ∈ ids, lk i = none) → (fetch_trunk_names_go lk ids acc).2 = [] := by
  intro ids
  induction ids with
  | nil =>
    intro acc h
    rcases h with ⟨i, hi, _⟩
    cases hi
  | cons i rest ih =>
    intro acc h
    cases hl : lk i with
    | some name =>
      rcases h with ⟨i2, hi2, hfail⟩
      rcases List.mem_cons.mp hi2 with rfl | hi2
      · rw [hl] at hfail
        cases hfail
      · simp only [fetch_trunk_names_go, hl]
        exact ih _ ⟨i2, hi2, hfail⟩
    | none => simp [fetch_trunk_names_go, hl]

/-! ## Claim theorems: identity resolution, subscription, keep-alive -/

/-- C5 counterexample: with directory lookups A -> GA, B failing,
C -> GC, resolving the tracked set [A, B, C] yields a map in which C is
absent even though its lookup succeeds — the failure at B aborts the
rest of the loop — refuting the claim that only failed trunks are
absent from the resulting map. -/
theorem C5_counterexample :
    alookup (fetch_trunk_names
        (fun s => if s = "A" then some "GA" else if s = "C" then some "GC" else none)
        ["A", "B", "C"]).1 "C" = none ∧
    (fun s => if s = "A" then some "GA" else if s = "C" then some "GC" else none) "C"
      = some "GC" ∧
    (fun s => if s = "A" then some "GA" else if s = "C" then some "GC" else none) "B"
      = none :=
  ⟨rfl, rfl, rfl⟩

/-- C5 (amended): a failing per-trunk lookup does not propagate (it is
caught and logged) but aborts the remaining resolution: the resulting
identity map holds exactly the entries of the longest prefix of the
tracked list on which every lookup succeeds, every later trunk is
absent even if its own lookup would succeed, and the group
pre-population step is skipped entirely. -/
theorem C5_lookup_failure_aborts_rest (lk : String → Option String) (ids : List String)
    (h : ∃ i ∈ ids, lk i = none) :
    (fetch_trunk_names lk ids).1 =
      (ids.takeWhile (fun i => (lk i).isSome)).filterMap
        (fun i => (lk i).map (fun n => (i, n))) ∧
    (fetch_trunk_names lk ids).2 = [] :=
  ⟨by simpa [fetch_trunk_names] using fetch_go_fst lk ids [],
   fetch_go_snd_fail lk ids [] h⟩

/-- Witness for C5 (amended) at a concrete input. -/
theorem C5_lookup_failure_aborts_rest_witness :
    (∃ i ∈ ["A", "B", "C"],
      (fun s => if s = "A" then some "GA" else if s = "C" then some "GC" else none) i
        = none) ∧
    ((fetch_trunk_names
        (fun s => if s = "A" then some "GA" else if s = "C" then some "GC" else none)
        ["A", "B", "C"]).1 =
      (["A", "B", "C"].takeWhile (fun i =>
        ((fun s => if s = "A" then some "GA" else if s = "C" then some "GC" else none) i).isSome)).filterMap
        (fun i => ((fun s => if s = "A" then some "GA" else if s = "C" then some "GC" else none) i).map
          (fun n => (i, n))) ∧
    (fetch_trunk_names
        (fun s => if s = "A" then some "GA" else if s = "C" then some "GC" else none)
        ["A", "B", "C"]).2 = []) :=
  ⟨⟨"B", by decide, rfl⟩,
    C5_lookup_failure_aborts_rest
      (fun s => if s = "A" then some "GA" else if s = "C" then some "GC" else none)
      ["A", "B", "C"] ⟨"B", by decide, rfl⟩⟩

/-- C6 counterexample: with tracked set [T1, T2] the subscription loop
emits two subscribe messages (one per trunk, each with a single-topic
list), not one message covering the full tracked set. -/
theorem C6_counterexample :
    (subscribe_to_trunk_metrics (fun _ => 0) ["T1", "T2"]).length = 2 ∧ (2 : Nat) ≠ 1 :=
  ⟨rfl, by decide⟩

/-- C6 (amended): subscription emits one subscribe message per tracked
trunk — as many messages as trunks, each with the single topic
`v2.telephony.providers.edges.trunks.<TrunkIdentifier>.metrics` — the
concatenation of their topic lists covering the full tracked set, and
every message of the batch is tagged with the same batch correlation
id. -/
theorem C6_one_message_per_trunk (pickChar : Nat → Nat) (trunk_ids : List String) :
    (subscribe_to_trunk_metrics pickChar trunk_ids).length = trunk_ids.length ∧
    ((subscribe_to_trunk_metrics pickChar trunk_ids).map (fun m => m.topics)).flatten
      = trunk_ids.map trunkTopic ∧
    (subscribe_to_trunk_metrics pickChar trunk_ids).all
      (fun m => m.message == "subscribe" &&
        m.correlationId == generate_correlation_id pickChar 12) = true := by
  refine ⟨by simp [subscribe_to_trunk_metrics], ?_, ?_⟩
  · induction trunk_ids with
    | nil => rfl
    | cons i rest ih => simpa [subscribe_to_trunk_metrics] using ih
  · simp only [subscribe_to_trunk_metrics, List.all_eq_true]
    intro m hm
    rcases List.mem_map.mp hm with ⟨tid, _, rfl⟩
    simp

/-! ## Lemmas about the keep-alive loop -/

theorem keep_alive_run_getD (sendOk : Nat → Bool) :
    ∀ (fuel k i : Nat), i < (keep_alive_run sendOk fuel k).length →
      (keep_alive_run sendOk fuel k).getD i (0, true) = (30 * (k + i + 1), sendOk (k + i)) := by
  intro fuel
  induction fuel with
  | zero => intro k i h; simp [keep_alive_run] at h
  | succ n ih =>
    intro k i h
    cases i with
    | zero => simp [keep_alive_run]
    | succ j =>
      by_cases hs : sendOk k = true
      · have hrun : keep_alive_run sendOk (n + 1) k =
            (30 * (k + 1), sendOk k) :: keep_alive_run sendOk n (k + 1) := by
          simp [keep_alive_run, hs]
        rw [hrun] at h ⊢
        rw [List.getD_cons_succ]
        have h2 : j < (keep_alive_run sendOk n (k + 1)).length := by
          simpa using Nat.lt_of_succ_lt_succ (by simpa using h)
        rw [ih (k + 1) j h2]
        have h3 : k + 1 + j = k + (j + 1) := by omega
        rw [h3]
      · have hrun : keep_alive_run sendOk (n + 1) k = [(30 * (k + 1), sendOk k)] := by
          simp [keep_alive_run, hs]
        rw [hrun] at h
        simp at h

theorem keep_alive_run_stops (sendOk : Nat → Bool) :
    ∀ (fuel k i : Nat), i < (keep_alive_run sendOk fuel k).length →
      sendOk (k + i) = false → (keep_alive_run sendOk fuel k).length = i + 1 := by
  intro fuel
  induction fuel with
  | zero => intro k i h _; simp [keep_alive_run] at h
  | succ n ih =>
    intro k i h hfail
    cases i with
    | zero =>
      have hs : sendOk k = false := by simpa using hfail
      simp [keep_alive_run, hs]
    | succ j =>
      by_cases hs : sendOk k = true
      · have hrun : keep_alive_run sendOk (n + 1) k =
            (30 * (k + 1), sendOk k) :: keep_alive_run sendOk n (k + 1) := by
          simp [keep_alive_run, hs]
        rw [hrun] at h ⊢
        have h2 : j < (keep_alive_run sendOk n (k + 1)).length := by
          simpa using Nat.lt_of_succ_lt_succ (by simpa using h)
        have h3 : sendOk (k + 1 + j) = false := by
          have : k + 1 + j = k + (j + 1) := by omega
          rw [this]
          exact hfail
        simp [ih (k + 1) j h2 h3]
      · have hrun : keep_alive_run sendOk (n + 1) k = [(30 * (k + 1), sendOk k)] := by
          simp [keep_alive_run, hs]
        rw [hrun] at h
        simp at h

/-! ## Claim theorems: keep-alive -/

/-- C7 counterexample: during a streaming epoch with tracked trunk T1
the outbound traffic consists of the single subscribe message and
contains no ping: run_websocket never starts the keep_alive routine, so
no keep-alive ping is ever sent, refuting the claim that pings are sent
periodically whenever the epoch is streaming. -/
theorem C7_counterexample :
    Outbound.ping ∉ run_websocket_epoch_sends (fun _ => 0) ["T1"] ∧
    (run_websocket_epoch_sends (fun _ => 0) ["T1"]).length = 1 := by
  exact ⟨by decide, rfl⟩

/-- C7 (amended): the keep_alive routine, when executed, attempts a
ping every 30 time-units (the i-th attempt at time 30*(i+1) with
outcome sendOk i) and terminates right after the first failed send; but
run_websocket never starts keep_alive, so a streaming epoch sends no
ping at all and a ping failure cannot force the connection into
CLOSING. -/
theorem C7_keep_alive_schedule (sendOk : Nat → Bool) (pickChar : Nat → Nat)
    (trunk_ids : List String) (fuel i : Nat)
    (h : i < (keep_alive_run sendOk fuel 0).length) :
    (keep_alive_run sendOk fuel 0).getD i (0, true) = (30 * (i + 1), sendOk i) ∧
    (sendOk i = false → (keep_alive_run sendOk fuel 0).length = i + 1) ∧
    Outbound.ping ∉ run_websocket_epoch_sends pickChar trunk_ids := by
  refine ⟨by simpa using keep_alive_run_getD sendOk fuel 0 i h, ?_, ?_⟩
  · intro hf
    simpa using keep_alive_run_stops sendOk fuel 0 i h (by simpa using hf)
  · intro hping
    simp [run_websocket_epoch_sends] at hping

/-- Witness for C7 (amended) at a concrete input. -/
theorem C7_keep_alive_schedule_witness :
    (1 < (keep_alive_run (fun k => k == 0) 5 0).length) ∧
    ((keep_alive_run (fun k => k == 0) 5 0).getD 1 (0, true) = (30 * (1 + 1), (1 : Nat) == 0) ∧
    (((1 : Nat) == 0) = false → (keep_alive_run (fun k => k == 0) 5 0).length = 1 + 1) ∧
    Outbound.ping ∉ run_websocket_epoch_sends (fun _ => 0) ["T1", "T2"]) :=
  ⟨by decide, C7_keep_alive_schedule (fun k => k == 0) (fun _ => 0) ["T1", "T2"] 5 1 (by decide)⟩

/-! ## Lemmas about interleaved execution -/

theorem writeOut_writeIn (tc : List (String × Nat × Nat)) (t : String) (c : Nat × Nat) :
    writeOut (writeIn tc t c.1) t c.2 = update tc t c := by
  induction tc with
  | nil => simp [writeIn, writeOut, update]
  | cons p rest ih =>
    rcases p with ⟨a, b⟩
    by_cases ha : a = t
    · simp [writeIn, writeOut, update, ha]
    · simp [writeIn, writeOut, update, ha, ih]

theorem exec_append (l1 : List MemOp) :
    ∀ (l2 : List MemOp) (tc : List (String × Nat × Nat)) (acc : Nat × Nat),
      exec tc acc (l1 ++ l2) = exec (exec tc acc l1).1 (exec tc acc l1).2 l2 := by
  induction l1 with
  | nil => intros; rfl
  | cons op rest ih =>
    intro l2 tc acc
    cases op <;> simp [exec, ih]

theorem exec_updTrace (t : String) (c : Nat × Nat) (tc : List (String × Nat × Nat))
    (acc : Nat × Nat) : exec tc acc (updTrace t c) = (update tc t c, acc) := by
  simp [updTrace, exec, writeOut_writeIn]

theorem exec_snapTrace (idMap : List (String × String)) (g : String) :
    ∀ (tc : List (String × Nat × Nat)) (acc : Nat × Nat),
      exec tc acc (snapTrace idMap g)
        = (tc, (acc.1 + groupSumIn idMap tc g, acc.2 + groupSumOut idMap tc g)) := by
  induction idMap with
  | nil => intro tc acc; simp [snapTrace, exec, groupSumIn, groupSumOut]
  | cons p rest ih =>
    intro tc acc
    by_cases hp : p.2 = g
    · have hsnap : snapTrace (p :: rest) g = .rIn p.1 :: .rOut p.1 :: snapTrace rest g := by
        simp [snapTrace, List.filter_cons, hp]
      rw [hsnap]
      simp only [exec]
      rw [ih]
      simp [groupSumIn, groupSumOut, List.filter_cons, hp, Nat.add_assoc]
    · have hsnap : snapTrace (p :: rest) g = snapTrace rest g := by
        simp [snapTrace, List.filter_cons, hp]
      rw [hsnap, ih]
      simp [groupSumIn, groupSumOut, List.filter_cons, hp]

/-! ## Claim theorems: snapshot vs concurrent update -/

/-- C9 counterexample: one trunk T1 mapped to group G with stored
counters (3, 1); the dispatcher performs update(T1, (5, 2)) as its two
component writes while the snapshot loop performs its two component
reads; in the interleaving that reads inbound before the writes and
outbound after them, the snapshot observes (3, 2) — a half-applied
pair (old inbound 3, new outbound 2) that differs from every consistent
instant (3,1), (5,1), (5,2) — refuting the claimed atomicity. -/
theorem C9_counterexample :
    Interleaving (updTrace "T1" (5, 2)) (snapTrace [("T1", "G")] "G")
      [.rIn "T1", .wIn "T1" 5, .wOut "T1" 2, .rOut "T1"] ∧
    (exec [("T1", (3, 1))] (0, 0) [.rIn "T1", .wIn "T1" 5, .wOut "T1" 2, .rOut "T1"]).2
      = (3, 2) ∧
    ((3, 2) : Nat × Nat) ≠ (3, 1) ∧ ((3, 2) : Nat × Nat) ≠ (5, 2) ∧
    ((3, 2) : Nat × Nat) ≠ (5, 1) := by
  refine ⟨?_, rfl, by decide, by decide, by decide⟩
  have h : snapTrace [("T1", "G")] "G" = [.rIn "T1", .rOut "T1"] := rfl
  have h2 : updTrace "T1" (5, 2) = [.wIn "T1" 5, .wOut "T1" 2] := rfl
  rw [h, h2]
  exact .right (.left (.left (.right .nil)))

/-- C9 (amended): because the two component writes of an update and the
two component reads of the snapshot are separate unsynchronized memory
accesses, an interleaved snapshot can observe a half-applied pair (see
the counterexample); a snapshot that does not interleave with the
update — scheduled entirely after it or entirely before it — observes
exactly the consistent group totals of the corresponding store state. -/
theorem C9_serialized_snapshot_consistent (tc : List (String × Nat × Nat))
    (idMap : List (String × String)) (g t : String) (c : Nat × Nat) :
    (exec tc (0, 0) (updTrace t c ++ snapTrace idMap g)).2
      = groupTotals idMap (update tc t c) g ∧
    (exec tc (0, 0) (snapTrace idMap g ++ updTrace t c)).2 = groupTotals idMap tc g := by
  constructor
  · rw [exec_append, exec_updTrace, exec_snapTrace]
    simp [groupTotals_eq]
  · rw [exec_append, exec_snapTrace, exec_updTrace]
    simp [groupTotals_eq]

end TrunkMetrics
